import Mathlib

/-!
# Verification of the usage-quota / subscription-gating subsystem

Shallow embedding of `src/functions/index.js` (the Cloud Functions backend of
the resume-analysis app): the plan registry `PLANS`, the quota gate
`checkUsageLimit`, the usage ledger operations `recordUsage` / the usage
queries, the three action handlers (`analyzeResume`, `generateCoverLetter`,
`optimizeResume`) and the subscription reporter `getSubscription`.

JavaScript dynamics that matter here are made explicit:
* a missing object property reads as `undefined` (modelled with `Option` /
  the `JVal.undefined` constructor);
* `x < undefined` is `false` and `undefined - n` is `NaN` (so
  `Math.max(0, NaN) = NaN`), modelled by `jsLtNum` / `jsMax0Sub`;
* `||` defaulting and truthiness of strings (empty string is falsy),
  modelled by `truthy` / `jsOrFree`;
* template-string interpolation renders `undefined` as the text
  "undefined", modelled by `jstr`.

The external generation collaborator (an HTTP service) is modelled by the
`Collab` record carrying the observable pieces the code inspects
(`response.ok`, the HTTP status, `data.error`, and the candidate text), and
the platform builtin `JSON.parse` is modelled as an explicit `parse`
function parameter of the analysis handler (`none` = the builtin throws).
The Firestore store is modelled by `DB`: a `users` document collection and
the append-only `usage` collection; server timestamps come from a `Clock`.
-/

deriving instance DecidableEq for Except

namespace ATS

/-- Per-action monthly limits of a plan (`PLANS.<id>.limits` in the source);
`-1` is the unlimited sentinel. -/
structure Limits where
  analyses : Int
  coverLetters : Int
  optimizations : Int
  deriving DecidableEq, Repr

/-- A plan object of the `PLANS` registry: a human label and the limits. -/
structure Plan where
  name : String
  limits : Limits
  deriving DecidableEq, Repr

/-- Source `PLANS.FREE`: analyses 5, coverLetters 3, optimizations 2. -/
def PLANS_FREE : Plan := { name := "Free", limits := { analyses := 5, coverLetters := 3, optimizations := 2 } }

/-- Source `PLANS.PREMIUM`: every limit is the unlimited sentinel -1. -/
def PLANS_PREMIUM : Plan := { name := "Premium", limits := { analyses := -1, coverLetters := -1, optimizations := -1 } }

/-- The static registry `PLANS`: property access `PLANS[id]`; any other id
reads as `undefined` (`none`). -/
def PLANS (id : String) : Option Plan :=
  if id = "FREE" then some PLANS_FREE
  else if id = "PREMIUM" then some PLANS_PREMIUM
  else none

/-- A JavaScript value readable off a plan object: the plan objects own
exactly the properties `name` (a string) and `limits` (an object); any
other key reads `undefined`. -/
inductive JVal where
  | undefined
  | vstr (s : String)
  | vint (n : Int)
  | vlimits (l : Limits)
  deriving DecidableEq, Repr

/-- Dynamic property access `plan[key]` on a plan object. -/
def Plan.get (p : Plan) (key : String) : JVal :=
  if key = "name" then .vstr p.name
  else if key = "limits" then .vlimits p.limits
  else .undefined

/-- JS `used < v` for a number `used` and an arbitrary value `v`: comparison
with `undefined` goes through `NaN` and is `false`; the only non-numeric
values that can occur here (the name strings, a limits object) also
coerce to `NaN`, hence `false`. -/
def jsLtNum (used : Nat) (v : JVal) : Bool :=
  match v with
  | .vint n => (used : Int) < n
  | _ => false

/-- JS strict equality `v === -1`. -/
def jsIsNegOne (v : JVal) : Bool :=
  match v with
  | .vint n => n = -1
  | _ => false

/-- The `remaining` field of a quota-check result: the string literal unlimited,
a number, or `NaN` (what `Math.max(0, undefined - used)` evaluates to). -/
inductive Remaining where
  | unlimited
  | num (n : Int)
  | nan
  deriving DecidableEq, Repr

/-- JS `Math.max(0, v - used)`: numeric when `v` is a number, `NaN`
otherwise (subtraction involving `undefined` or a non-numeric string
is `NaN`, and `Math.max(0, NaN) = NaN`). -/
def jsMax0Sub (v : JVal) (used : Nat) : Remaining :=
  match v with
  | .vint n => .num (max 0 (n - (used : Int)))
  | _ => .nan

/-- One document of the `usage` collection.  `recordUsage` writes the fields
`userId`, `action` and `timestamp`; a document need not carry a `type`
field (`recordUsage` never writes one), but `getSubscription` reads one,
so both dynamic fields are carried as options. -/
structure UsageEvent where
  userId : String
  action : Option String
  type : Option String
  timestamp : Nat
  deriving DecidableEq, Repr

/-- One document of the `users` collection (the fields the code reads). -/
structure UserDoc where
  plan : Option String
  subscription : Option String
  stripeCustomerId : Option String
  subscriptionStatus : Option String
  deriving DecidableEq, Repr

/-- The Firestore state: the `users` collection (keyed by uid) and the
append-only `usage` collection. -/
structure DB where
  users : List (String × UserDoc)
  usage : List UsageEvent
  deriving DecidableEq, Repr

/-- Firestore document read on the users collection:
`none` when the document does not exist. -/
def DB.getUser (db : DB) (uid : String) : Option UserDoc :=
  (db.users.find? (fun p => p.1 = uid)).map (fun p => p.2)

/-- Server time: `new Date()` and the month boundaries the two queries
compute (`startOfMonth`, `endOfMonth`). -/
structure Clock where
  now : Nat
  startOfMonth : Nat
  endOfMonth : Nat
  deriving DecidableEq, Repr

/-- Source helper `getUserSubscription(uid)`: the data of the user document, or
the default object with plan FREE and null billing fields
when the document does not exist. -/
def getUserSubscription (db : DB) (uid : String) : UserDoc :=
  match db.getUser uid with
  | some d => d
  | none => { plan := some "FREE", subscription := none, stripeCustomerId := none, subscriptionStatus := none }

/-- Plan resolution `PLANS[user.plan] || PLANS.FREE` inside `checkUsageLimit`: an absent or
unrecognized plan id resolves to the free plan object. -/
def resolvePlan (userPlan : Option String) : Plan :=
  match userPlan.bind PLANS with
  | some p => p
  | none => PLANS_FREE

/-- The `usage` query of `checkUsageLimit`: documents with matching
`userId`, matching `action`, and `timestamp >= startOfMonth`; `used` is the
result-set size. -/
def countUsage (db : DB) (uid action : String) (startOfMonth : Nat) : Nat :=
  (db.usage.filter (fun e =>
    e.userId == uid && e.action == some action && decide (startOfMonth ≤ e.timestamp))).length

/-- The quota-gate result object (fields `used` / `limit` are absent, i.e.
`undefined`, on the unlimited branch). -/
structure CheckResult where
  allowed : Bool
  remaining : Remaining
  used : Option Nat
  limit : JVal
  deriving DecidableEq, Repr

/-- Source helper `checkUsageLimit(uid, action)`, paired with the number
of `usage`-collection queries it performed.  Note the source reads the
limit as `plan[action ++ PerMonth]` (a property no plan object owns — the
limits live at `plan.limits[action]`), so `limitV` is `undefined` for the
actions the handlers pass. -/
def checkUsageLimit (db : DB) (clock : Clock) (uid action : String) : CheckResult × Nat :=
  let user := getUserSubscription db uid
  let plan := resolvePlan user.plan
  let key := action ++ "PerMonth"
  if jsIsNegOne (plan.get key) then
    ({ allowed := true, remaining := .unlimited, used := none, limit := .undefined }, 0)
  else
    let used := countUsage db uid action clock.startOfMonth
    let limitV := plan.get key
    ({ allowed := jsLtNum used limitV
     , remaining := jsMax0Sub limitV used
     , used := some used
     , limit := limitV }, 1)

/-- Source helper `recordUsage(uid, action)`: appends one document with fields `userId`,
`action` and a server timestamp.  It writes no `type` field. -/
def recordUsage (db : DB) (clock : Clock) (uid action : String) : DB :=
  { db with usage := db.usage ++
      [{ userId := uid, action := some action, type := none, timestamp := clock.now }] }

/-- Helper: `recordUsage` iterated `n` times (for round-trip statements). -/
def recordN (db : DB) (clock : Clock) (uid action : String) : Nat → DB
  | 0 => db
  | n + 1 => recordUsage (recordN db clock uid action n) clock uid action

/-- The month-to-date usage tally object of `getSubscription`, initialized
`{ analyses: 0, coverLetters: 0, optimizations: 0 }`; these are its only
own properties. -/
structure Usage where
  analyses : Nat
  coverLetters : Nat
  optimizations : Nat
  deriving DecidableEq, Repr

/-- One step of the `usageQuery.forEach` loop: increment the counter named
by the `type` field of the document when `usage.hasOwnProperty(data.type)`,
otherwise leave the tally as is (an absent `type` reads `undefined`, which
is not an own property). -/
def tallyStep (u : Usage) (d : UsageEvent) : Usage :=
  match d.type with
  | some s =>
    if s = "analyses" then { u with analyses := u.analyses + 1 }
    else if s = "coverLetters" then { u with coverLetters := u.coverLetters + 1 }
    else if s = "optimizations" then { u with optimizations := u.optimizations + 1 }
    else u
  | none => u

/-- The whole `forEach` tally of `getSubscription`. -/
def tallyUsage (docs : List UsageEvent) : Usage :=
  docs.foldl tallyStep { analyses := 0, coverLetters := 0, optimizations := 0 }

/-- The `usage` query of `getSubscription`: all events of the user with
`startOfMonth <= timestamp <= endOfMonth` (no action filter). -/
def monthDocs (db : DB) (clock : Clock) (uid : String) : List UsageEvent :=
  db.usage.filter (fun e =>
    e.userId == uid && decide (clock.startOfMonth ≤ e.timestamp)
      && decide (e.timestamp ≤ clock.endOfMonth))

/-- JS `userData.subscription` with a FREE default: defaults when the field is absent
or the empty string (falsy). -/
def jsOrFree : Option String → String
  | none => "FREE"
  | some s => if s = "" then "FREE" else s

/-- Error kinds thrown by the handlers (`HttpsError` codes); the
quota-exceeded error carries the `used` / `limit` data of the check. -/
inductive HErr where
  | unauthenticated
  | permissionDenied
  | resourceExhausted (used : Option Nat) (limit : JVal)
  | invalidArgument
  | internal
  deriving DecidableEq, Repr

/-- The success payload of `getSubscription`. -/
structure SubResult where
  subscription : String
  usage : Usage
  limits : Limits
  deriving DecidableEq, Repr

/-- Caller identity: `context.auth` (`token.email` may be absent). -/
structure AuthInfo where
  uid : String
  email : Option String
  deriving DecidableEq, Repr

/-- The callable-function context (only `auth` is read). -/
structure Ctx where
  auth : Option AuthInfo
  deriving DecidableEq, Repr

/-- A context authenticated as `uid` with the given email. -/
def ctxAuth (uid : String) (email : Option String) : Ctx :=
  { auth := some { uid := uid, email := email } }

/-- Source callable `getSubscription`: resolve `userData.subscription`
(defaulting falsy values to FREE), tally the events of the month by their
`type` field, and read `PLANS[subscription].limits` — the property access
throws a `TypeError` when the plan id is unrecognized (caught and rethrown
as an `internal` error). -/
def getSubscription (db : DB) (clock : Clock) (ctx : Ctx) : Except HErr SubResult :=
  match ctx.auth with
  | none => .error .unauthenticated
  | some a =>
    let userData := db.getUser a.uid
    let subscription := jsOrFree (userData.bind (fun d => d.subscription))
    let usage := tallyUsage (monthDocs db clock a.uid)
    match PLANS subscription with
    | some p => .ok { subscription := subscription, usage := usage, limits := p.limits }
    | none => .error .internal

/-- The callable request payload `data` as destructured by the handlers;
every field may be absent. -/
structure Req where
  resumeText : Option String
  jobDescription : Option String
  mode : Option String
  fileData : Option String
  mimeType : Option String
  deriving DecidableEq, Repr

/-- JS truthiness of a possibly-absent string: `undefined` and the empty
string are falsy. -/
def truthy : Option String → Bool
  | none => false
  | some s => s ≠ ""

/-- Template-string interpolation of a possibly-absent string: JS renders
`undefined` as the text "undefined". -/
def jstr : Option String → String
  | none => "undefined"
  | some s => s

/-- The beta allow-list `allowedUsers` from the source. -/
def allowedUsers : List String := ["your@email.com"]

/-- Membership check `allowedUsers.includes(context.auth.token.email)` — an absent email is
never a member. -/
def emailAllowed : Option String → Bool
  | none => false
  | some s => allowedUsers.contains s

/-- One element of the `contentParts` array sent to the collaborator:
either a text part or an inline binary part with its media type. -/
inductive Part where
  | ptext (s : String)
  | pinline (mimeType : Option String) (data : String)
  deriving DecidableEq, Repr

/-- The `contentParts` construction shared (textually repeated) by the three
handlers: attach the file when `fileData` is truthy, otherwise append the
resume text to the prompt. -/
def buildContentParts (promptBase : String) (req : Req) : List Part :=
  if truthy req.fileData then
    [ .ptext (promptBase ++ "RESUME FILE (See attached PDF):")
    , .pinline req.mimeType (jstr req.fileData) ]
  else
    [ .ptext (promptBase ++ "RESUME TEXT:\n" ++ jstr req.resumeText) ]

/-- Prompt start of the analysis handler (`promptText` before the resume
content is appended): mode-dependent, interpolating the job description. -/
def analyzePromptBase (req : Req) : String :=
  if req.mode = some "MATCH" then
    "ANALYZE MATCH:\n\nJOB DESCRIPTION:\n" ++ jstr req.jobDescription ++ "\n\n"
  else
    "ANALYZE RESUME CRITIQUE:\n\n"

/-- Full `contentParts` of the analysis handler. -/
def analyzeContentParts (req : Req) : List Part :=
  buildContentParts (analyzePromptBase req) req

/-- The observable pieces of the HTTP response of the collaborator that the
handlers inspect: `response.ok`, the status code, the structured error
payload `data.error` (its message), and the text of the first candidate. -/
structure Collab where
  ok : Bool
  status : Nat
  error : Option String
  text : Option String
  deriving DecidableEq, Repr

/-- A handler outcome: the returned value or thrown error, the resulting
store, the `contentParts` sent to the collaborator (`none` when no external
call was made), and effect counters — collaborator calls,
`usage`-collection queries (ledger reads) and `usage`-collection appends
(ledger writes). -/
structure HOut (α : Type) where
  result : Except HErr α
  db : DB
  sent : Option (List Part)
  externalCalls : Nat
  ledgerReads : Nat
  ledgerWrites : Nat

/-- Whether an `Except` is a success. -/
def isOkB {ε α : Type} : Except ε α → Bool
  | .ok _ => true
  | .error _ => false

/-- JS `indexOf` of a character over the character list of a string
(`none` = JS `-1`). -/
def jsIndexOf (target : Char) : List Char → Option Nat
  | [] => none
  | c :: cs => if c = target then some 0 else (jsIndexOf target cs).map (fun k => k + 1)

/-- JS `lastIndexOf` of a character (`none` = JS `-1`). -/
def jsLastIndexOf (target : Char) (cs : List Char) : Option Nat :=
  (jsIndexOf target cs.reverse).map (fun k => cs.length - 1 - k)

/-- JS `String.prototype.substring(a, b)`: swaps the bounds when
`a > b` and clamps to the length. -/
def jsSubstringL (cs : List Char) (a b : Nat) : List Char :=
  (cs.take (max a b)).drop (min a b)

/-- The opening-brace character. -/
def lbrace : Char := Char.ofNat 123

/-- The closing-brace character. -/
def rbrace : Char := Char.ofNat 125

/-- Lines 183–188 of the source: take the substring from the first
opening brace to the last closing brace (inclusive) when both exist,
otherwise keep the raw text. -/
def cleanJsonL (cs : List Char) : List Char :=
  match jsIndexOf lbrace cs, jsLastIndexOf rbrace cs with
  | some i, some j => jsSubstringL cs i (j + 1)
  | _, _ => cs

/-- String wrapper of `cleanJsonL` (the `cleanJson` variable of the
source). -/
def cleanJson (s : String) : String := String.mk (cleanJsonL s.toList)

/-- A handler outcome for a rejection before the external call. -/
def noCallOut {α : Type} (e : HErr) (db : DB) : HOut α :=
  { result := .error e, db := db, sent := none, externalCalls := 0, ledgerReads := 0, ledgerWrites := 0 }

/-- A handler outcome for a failure at or after the external call (every
throw inside the `try` block surfaces as an `internal` error). -/
def failedCallOut {α : Type} (db : DB) (sent : List Part) : HOut α :=
  { result := .error .internal, db := db, sent := some sent, externalCalls := 1, ledgerReads := 0, ledgerWrites := 0 }

/-- The body of `analyzeResume` after the quota gate (source lines
110–198): validate the resume content, build the parts, call the
collaborator, clean and parse the candidate text, and record usage on
success. -/
def analyzeResumeBody {α : Type} (parse : String → Option α) (db : DB) (clock : Clock)
    (uid : String) (req : Req) (collab : Collab) : HOut α :=
  if !truthy req.resumeText && !truthy req.fileData then
    noCallOut .invalidArgument db
  else
    let parts := analyzeContentParts req
    if !collab.ok then failedCallOut db parts
    else match collab.error with
    | some _ => failedCallOut db parts
    | none =>
      if truthy collab.text then
        match parse (cleanJson (jstr collab.text)) with
        | some v =>
          { result := .ok v, db := recordUsage db clock uid "analyses"
          , sent := some parts, externalCalls := 1, ledgerReads := 0, ledgerWrites := 1 }
        | none => failedCallOut db parts
      else failedCallOut db parts

/-- The cover-letter prompt prefix (`promptText` before the resume content
is appended). -/
def coverPromptBase (req : Req) : String :=
  "GENERATE COVER LETTER:\n\nJOB DESCRIPTION:\n" ++ jstr req.jobDescription ++ "\n\n"

/-- Full `contentParts` of the cover-letter handler. -/
def coverContentParts (req : Req) : List Part :=
  buildContentParts (coverPromptBase req) req

/-- The body of `generateCoverLetter` after the quota gate (source lines
225–281): no input validation at all — the collaborator is called
unconditionally; usage is recorded when a truthy letter comes back. -/
def generateCoverLetterBody (db : DB) (clock : Clock)
    (uid : String) (req : Req) (collab : Collab) : HOut String :=
  let parts := coverContentParts req
  if !collab.ok then failedCallOut db parts
  else match collab.error with
  | some _ => failedCallOut db parts
  | none =>
    if truthy collab.text then
      { result := .ok (jstr collab.text), db := recordUsage db clock uid "coverLetters"
      , sent := some parts, externalCalls := 1, ledgerReads := 0, ledgerWrites := 1 }
    else failedCallOut db parts

/-- The backtick character. -/
def backquote : Char := Char.ofNat 96

/-- The token `[backquote, backquote, backquote] ++ "latex"` of the
code-fence regex. -/
def latexFence : List Char := [backquote, backquote, backquote] ++ String.toList "latex"

/-- The bare three-backtick fence token. -/
def bareFence : List Char := [backquote, backquote, backquote]

/-- Fuelled scan implementing the global regex replace that deletes every
occurrence of a latex code fence or a bare fence, scanning left to right
and preferring the longer alternative (as the regex alternation does). -/
def stripFencesAux : Nat → List Char → List Char
  | 0, cs => cs
  | _ + 1, [] => []
  | fuel + 1, c :: rest =>
    if latexFence.isPrefixOf (c :: rest) then stripFencesAux fuel (rest.drop 7)
    else if bareFence.isPrefixOf (c :: rest) then stripFencesAux fuel (rest.drop 2)
    else c :: stripFencesAux fuel rest

/-- JS `trim()`: drop leading and trailing whitespace. -/
def trimL (cs : List Char) : List Char :=
  ((cs.dropWhile Char.isWhitespace).reverse.dropWhile Char.isWhitespace).reverse

/-- The replace-then-trim step on optimizedText (global latex-fence regex delete, then trim) from the source. -/
def stripFences (s : String) : String :=
  String.mk (trimL (stripFencesAux s.toList.length s.toList))

/-- The optimization prompt prefix (`promptText` before the resume content
is appended). -/
def optimizePromptBase (req : Req) : String :=
  "GENERATE COMPACT LATEX RESUME OPTIMIZED FOR JD:\n\nJOB DESCRIPTION:\n" ++ jstr req.jobDescription ++ "\n\n"

/-- Full `contentParts` of the optimization handler. -/
def optimizeContentParts (req : Req) : List Part :=
  buildContentParts (optimizePromptBase req) req

/-- The body of `optimizeResume` after the quota gate (source lines
307–372): no input validation — the collaborator is called
unconditionally; on a truthy text the fences are stripped, usage recorded,
and the text returned. -/
def optimizeResumeBody (db : DB) (clock : Clock)
    (uid : String) (req : Req) (collab : Collab) : HOut String :=
  let parts := optimizeContentParts req
  if !collab.ok then failedCallOut db parts
  else match collab.error with
  | some _ => failedCallOut db parts
  | none =>
    if truthy collab.text then
      { result := .ok (stripFences (jstr collab.text)), db := recordUsage db clock uid "optimizations"
      , sent := some parts, externalCalls := 1, ledgerReads := 0, ledgerWrites := 1 }
    else failedCallOut db parts

/-- The auth / allow-list / quota prologue shared by the three handlers,
wrapped around a body: reject unauthenticated callers, reject callers off
the allow-list, run `checkUsageLimit` for the action of the handler (counting
its ledger query), and reject with the quota-exceeded error when not
allowed. -/
def handlerPipeline {α : Type} (db : DB) (clock : Clock) (ctx : Ctx) (action : String)
    (body : String → HOut α) : HOut α :=
  match ctx.auth with
  | none => noCallOut .unauthenticated db
  | some a =>
    if !emailAllowed a.email then
      noCallOut .permissionDenied db
    else
      let chk := checkUsageLimit db clock a.uid action
      if !chk.1.allowed then
        { result := .error (.resourceExhausted chk.1.used chk.1.limit)
        , db := db, sent := none, externalCalls := 0, ledgerReads := chk.2, ledgerWrites := 0 }
      else
        let out := body a.uid
        { out with ledgerReads := out.ledgerReads + chk.2 }

/-- The full `analyzeResume` callable. -/
def analyzeResume {α : Type} (parse : String → Option α) (db : DB) (clock : Clock)
    (ctx : Ctx) (req : Req) (collab : Collab) : HOut α :=
  handlerPipeline db clock ctx "analyses" (fun uid => analyzeResumeBody parse db clock uid req collab)

/-- The full `generateCoverLetter` callable. -/
def generateCoverLetter (db : DB) (clock : Clock)
    (ctx : Ctx) (req : Req) (collab : Collab) : HOut String :=
  handlerPipeline db clock ctx "coverLetters" (fun uid => generateCoverLetterBody db clock uid req collab)

/-- The full `optimizeResume` callable. -/
def optimizeResume (db : DB) (clock : Clock)
    (ctx : Ctx) (req : Req) (collab : Collab) : HOut String :=
  handlerPipeline db clock ctx "optimizations" (fun uid => optimizeResumeBody db clock uid req collab)

/-! ## Concrete fixtures for evaluated statements -/

/-- An empty store. -/
def emptyDB : DB := { users := [], usage := [] }

/-- A server clock sitting mid-month (so freshly recorded events fall inside
both month-bounded queries). -/
def clock0 : Clock := { now := 15, startOfMonth := 10, endOfMonth := 40 }

/-- A user document on the premium plan. -/
def premiumDoc : UserDoc :=
  { plan := some "PREMIUM", subscription := some "PREMIUM", stripeCustomerId := none, subscriptionStatus := none }

/-- A store holding one premium user and an empty ledger. -/
def dbPremium : DB := { users := [("u1", premiumDoc)], usage := [] }

/-- A user document on an unrecognized plan. -/
def entDoc : UserDoc :=
  { plan := some "ENTERPRISE", subscription := some "ENTERPRISE", stripeCustomerId := none, subscriptionStatus := none }

/-- A store holding one user with an unrecognized plan. -/
def dbEnterprise : DB := { users := [("u3", entDoc)], usage := [] }

/-- The allow-listed email of the source. -/
def betaEmail : Option String := some "your@email.com"

/-- A request with no resume content at all. -/
def reqNone : Req :=
  { resumeText := none, jobDescription := some "JD", mode := none, fileData := none, mimeType := none }

/-- A well-formed request carrying resume text. -/
def reqText : Req :=
  { resumeText := some "MY RESUME", jobDescription := some "JD", mode := none, fileData := none, mimeType := none }

/-- A request carrying both resume text and a file payload. -/
def reqBoth : Req :=
  { resumeText := some "MY RESUME TEXT", jobDescription := some "JD", mode := none
  , fileData := some "BASE64DATA", mimeType := some "application/pdf" }

/-- A successful collaborator response with a truthy text. -/
def collabOK : Collab := { ok := true, status := 200, error := none, text := some "LETTER" }

/-! ## Shared lemmas about the quota gate and the ledger -/

/-- The dynamic key the quota gate reads, `action ++ "PerMonth"`, is a
property no plan object owns (plan objects own only `name` and `limits`),
so the read yields `undefined` — for every action string, because the key
always ends in `PerMonth` and is therefore too long to be `name` or
`limits`. -/
theorem planGet_perMonth_undef (p : Plan) (action : String) :
    p.get (action ++ "PerMonth") = .undefined := by
  have e1 : ("PerMonth" : String).length = 8 := rfl
  have h1 : action ++ "PerMonth" ≠ "name" := by
    intro h
    have hlen := congrArg String.length h
    rw [String.length_append, e1] at hlen
    have e2 : ("name" : String).length = 4 := rfl
    omega
  have h2 : action ++ "PerMonth" ≠ "limits" := by
    intro h
    have hlen := congrArg String.length h
    rw [String.length_append, e1] at hlen
    have e3 : ("limits" : String).length = 6 := rfl
    omega
  unfold Plan.get
  rw [if_neg h1, if_neg h2]

/-- The quota gate as written always denies: the limit read is `undefined`,
the unlimited short-circuit never fires (`undefined === -1` is false), the
ledger is always queried, `used < undefined` is false and the remaining
figure is `NaN`. -/
theorem checkUsageLimit_always_denies (db : DB) (clock : Clock) (uid action : String) :
    checkUsageLimit db clock uid action
      = ({ allowed := false, remaining := .nan
         , used := some (countUsage db uid action clock.startOfMonth), limit := .undefined }, 1) := by
  simp only [checkUsageLimit, planGet_perMonth_undef, jsIsNegOne, jsLtNum, jsMax0Sub,
    Bool.false_eq_true, if_false]

/-- Helper: the ledger after `n` iterated records is the old ledger plus
`n` copies of the one event `recordUsage` writes (userId, action, server
timestamp — and no `type` field). -/
theorem recordN_usage (db : DB) (clock : Clock) (uid action : String) (n : Nat) :
    (recordN db clock uid action n).usage
      = db.usage ++ List.replicate n
          { userId := uid, action := some action, type := none, timestamp := clock.now } := by
  induction n with
  | zero => simp [recordN]
  | succ k ih =>
    rw [recordN, recordUsage, List.replicate_succ' k]
    simp [ih]

/-- Helper: events without a `type` field contribute nothing to the
subscription-report tally. -/
theorem tallyUsage_append_typeless (l1 l2 : List UsageEvent)
    (h : ∀ e ∈ l2, e.type = none) :
    tallyUsage (l1 ++ l2) = tallyUsage l1 := by
  unfold tallyUsage
  rw [List.foldl_append]
  generalize List.foldl tallyStep _ l1 = u
  induction l2 generalizing u with
  | nil => rfl
  | cons e es ih =>
    rw [List.foldl_cons]
    have he : e.type = none := h e (by simp)
    have hstep : tallyStep u e = u := by unfold tallyStep; rw [he]
    rw [hstep]
    exact ih (fun x hx => h x (by simp [hx])) u

/-! ## Claim theorems -/

/-- C1: the claim says a premium (unlimited-plan) user gets
`allowed = true`, `remaining = unlimited` and no ledger query from
`checkUsageLimit` for each action kind.  The code contradicts its own
comment (`Premium users have unlimited usage`): the limit is read off the
nonexistent property `action ++ PerMonth` instead of `limits[action]`, so
the unlimited sentinel is never seen.  Concretely, a premium user asking
for an analysis gets `allowed = false`, `remaining = NaN` and one ledger
query — and in general every call of `checkUsageLimit`, for every plan and
action, queries the ledger once and denies. -/
theorem C1_premium_quota_check_broken :
    (checkUsageLimit dbPremium clock0 "u1" "analyses"
        = ({ allowed := false, remaining := .nan, used := some 0, limit := .undefined }, 1)
      ∧ checkUsageLimit dbPremium clock0 "u1" "coverLetters"
        = ({ allowed := false, remaining := .nan, used := some 0, limit := .undefined }, 1)
      ∧ checkUsageLimit dbPremium clock0 "u1" "optimizations"
        = ({ allowed := false, remaining := .nan, used := some 0, limit := .undefined }, 1))
    ∧ ∀ (db : DB) (clock : Clock) (uid action : String),
        (checkUsageLimit db clock uid action).1.allowed = false
          ∧ (checkUsageLimit db clock uid action).2 = 1 :=
  ⟨⟨by decide, by decide, by decide⟩,
   fun db clock uid action => by rw [checkUsageLimit_always_denies]; exact ⟨rfl, rfl⟩⟩

/-- C2: the claim says a free-tier user with no prior events passes the
quota check five times and is only rejected on the sixth call with
`used = 5, limit = 5`.  In the code the free-tier limits are never read
(same broken property as in C1): the very first analysis call of a fresh
free user is already rejected as quota-exceeded, carrying `used = 0` and an
`undefined` limit, and `checkUsageLimit` reports `allowed = false`,
`remaining = NaN` instead of `allowed = (used < 5)`. -/
theorem C2_free_first_call_rejected :
    (analyzeResume (fun s => some s) emptyDB clock0 (ctxAuth "u1" betaEmail) reqText collabOK).result
      = .error (.resourceExhausted (some 0) .undefined)
    ∧ (checkUsageLimit emptyDB clock0 "u1" "analyses").1
      = { allowed := false, remaining := .nan, used := some 0, limit := .undefined } := by
  constructor
  · decide
  · decide

/-- C3: the claim says recording `N` events of an action kind and then
reporting the subscription yields `usage[actionKind] = N`.  The code
records events under the field `action` but tallies the report by the
field `type`, so every recorded event is silently skipped: after one
recorded analysis event the report still shows zero analyses, and in
general the tally after any number of recorded events equals the tally
before them. -/
theorem C3_roundtrip_reports_zero :
    (getSubscription (recordN emptyDB clock0 "u2" "analyses" 1) clock0 (ctxAuth "u2" betaEmail)
        = .ok { subscription := "FREE"
              , usage := { analyses := 0, coverLetters := 0, optimizations := 0 }
              , limits := PLANS_FREE.limits })
    ∧ ∀ (db : DB) (clock : Clock) (uid uid2 action : String) (n : Nat),
        tallyUsage (monthDocs (recordN db clock uid action n) clock uid2)
          = tallyUsage (monthDocs db clock uid2) := by
  constructor
  · decide
  · intro db clock uid uid2 action n
    unfold monthDocs
    rw [recordN_usage, List.filter_append]
    apply tallyUsage_append_typeless
    intro e he
    have hmem := List.mem_of_mem_filter he
    rw [List.eq_of_mem_replicate hmem]

/-- Helper: a user document whose plan and subscription fields carry the
given plan identifier. -/
def planDoc (planId : String) (cid ss : Option String) : UserDoc :=
  { plan := some planId, subscription := some planId, stripeCustomerId := cid, subscriptionStatus := ss }

/-- C4 counterexample: the claim says an account on an unrecognized plan is
reported with the free-tier limits, never with an error.  For a stored
plan identifier ENTERPRISE, `getSubscription` instead throws: the registry
lookup yields `undefined` and reading `.limits` off it raises, surfaced as
an internal error. -/
theorem C4_counterexample :
    getSubscription dbEnterprise clock0 (ctxAuth "u3" none) = .error .internal := by decide

/-- C4 amended: only the quota gate fails safe.  For every unrecognized,
non-empty plan identifier: `checkUsageLimit` behaves exactly as it does for
a FREE-plan account (its plan resolution defaults to the free plan object,
and it never fails open to unlimited), while `getSubscription` raises an
internal error instead of defaulting (it defaults only a missing or empty
identifier to FREE). -/
theorem C4_unknown_plan_amended (planId uid action : String) (em cid ss : Option String)
    (usage : List UsageEvent) (clock : Clock)
    (h1 : planId ≠ "FREE") (h2 : planId ≠ "PREMIUM") (h3 : planId ≠ "") :
    resolvePlan (some planId) = PLANS_FREE
    ∧ checkUsageLimit { users := [(uid, planDoc planId cid ss)], usage := usage } clock uid action
      = checkUsageLimit { users := [(uid, planDoc "FREE" cid ss)], usage := usage } clock uid action
    ∧ getSubscription { users := [(uid, planDoc planId cid ss)], usage := usage } clock (ctxAuth uid em)
      = .error .internal := by
  have hplans : PLANS planId = none := by
    unfold PLANS; rw [if_neg h1, if_neg h2]
  refine ⟨?_, ?_, ?_⟩
  · unfold resolvePlan
    simp [hplans]
  · rw [checkUsageLimit_always_denies, checkUsageLimit_always_denies]
    rfl
  · simp [getSubscription, ctxAuth, DB.getUser, List.find?, jsOrFree, planDoc, h3, hplans]

/-- C4 witness: the amended statement evaluated at the concrete
unrecognized plan identifier GOLD. -/
theorem C4_unknown_plan_amended_witness :
    (("GOLD" : String) ≠ "FREE" ∧ ("GOLD" : String) ≠ "PREMIUM" ∧ ("GOLD" : String) ≠ "")
    ∧ (resolvePlan (some "GOLD") = PLANS_FREE
      ∧ checkUsageLimit { users := [("u9", planDoc "GOLD" none none)], usage := [] } clock0 "u9" "analyses"
        = checkUsageLimit { users := [("u9", planDoc "FREE" none none)], usage := [] } clock0 "u9" "analyses"
      ∧ getSubscription { users := [("u9", planDoc "GOLD" none none)], usage := [] } clock0 (ctxAuth "u9" none)
        = .error .internal) :=
  ⟨⟨by decide, by decide, by decide⟩,
   C4_unknown_plan_amended "GOLD" "u9" "analyses" none none none [] clock0
     (by decide) (by decide) (by decide)⟩

/-- C5 counterexample: the claim says each of the three handlers rejects a
request that carries neither resume text nor file data with an
invalid-argument error before the collaborator is called.  The cover-letter
and optimization bodies contain no such validation: on a content-less
request they call the collaborator (one external call) and even succeed. -/
theorem C5_counterexample :
    (generateCoverLetterBody emptyDB clock0 "u1" reqNone collabOK).result = .ok "LETTER"
    ∧ (generateCoverLetterBody emptyDB clock0 "u1" reqNone collabOK).externalCalls = 1
    ∧ (optimizeResumeBody emptyDB clock0 "u1" reqNone collabOK).result = .ok "LETTER"
    ∧ (optimizeResumeBody emptyDB clock0 "u1" reqNone collabOK).externalCalls = 1 := by
  refine ⟨by decide, by decide, by decide, by decide⟩

/-- C5 amended: only the analysis handler validates resume content.  Its
body rejects a request with neither truthy resume text nor truthy file data
with an invalid-argument error and no external call; the cover-letter and
optimization bodies always perform the external call, validation or not. -/
theorem C5_only_analysis_validates {α : Type} (parse : String → Option α) (db : DB) (clock : Clock)
    (uid : String) (req : Req) (collab : Collab)
    (h1 : truthy req.resumeText = false) (h2 : truthy req.fileData = false) :
    analyzeResumeBody parse db clock uid req collab = noCallOut .invalidArgument db
    ∧ (generateCoverLetterBody db clock uid req collab).externalCalls = 1
    ∧ (optimizeResumeBody db clock uid req collab).externalCalls = 1 := by
  refine ⟨?_, ?_, ?_⟩
  · unfold analyzeResumeBody
    rw [h1, h2]
    simp
  · simp only [generateCoverLetterBody]
    repeat' split
    all_goals rfl
  · simp only [optimizeResumeBody]
    repeat' split
    all_goals rfl

/-- C5 witness: the amended statement evaluated at the concrete
content-less request. -/
theorem C5_only_analysis_validates_witness :
    (truthy reqNone.resumeText = false ∧ truthy reqNone.fileData = false)
    ∧ (analyzeResumeBody (fun s => some s) emptyDB clock0 "u1" reqNone collabOK
        = noCallOut .invalidArgument emptyDB
      ∧ (generateCoverLetterBody emptyDB clock0 "u1" reqNone collabOK).externalCalls = 1
      ∧ (optimizeResumeBody emptyDB clock0 "u1" reqNone collabOK).externalCalls = 1) :=
  ⟨⟨by decide, by decide⟩,
   C5_only_analysis_validates (fun s => some s) emptyDB clock0 "u1" reqNone collabOK
     (by decide) (by decide)⟩

/-- C6 counterexample: the claim says a malformed analysis call (no resume
text, no file) is rejected before any ledger interaction, with
quota-exceeded only detectable after validation.  In the code the quota
check runs first: the malformed call performs one ledger read and is
rejected by the quota gate, not by validation. -/
theorem C6_counterexample :
    (analyzeResume (fun s => some s) emptyDB clock0 (ctxAuth "u1" betaEmail) reqNone collabOK).ledgerReads = 1
    ∧ (analyzeResume (fun s => some s) emptyDB clock0 (ctxAuth "u1" betaEmail) reqNone collabOK).result
        ≠ .error .invalidArgument := by
  refine ⟨by decide, by decide⟩

/-- C6 amended: for an authenticated, allow-listed caller, a malformed
analysis call (no truthy resume text or file data) performs exactly one
ledger read and zero ledger writes and zero external calls, and is rejected
at the quota step — with the quota-exceeded error of the broken limit
lookup — before input validation is ever reached. -/
theorem C6_quota_before_validation {α : Type} (parse : String → Option α) (db : DB) (clock : Clock)
    (uid : String) (email : Option String) (req : Req) (collab : Collab)
    (hw : emailAllowed email = true)
    (h1 : truthy req.resumeText = false) (h2 : truthy req.fileData = false) :
    (analyzeResume parse db clock (ctxAuth uid email) req collab).ledgerReads = 1
    ∧ (analyzeResume parse db clock (ctxAuth uid email) req collab).ledgerWrites = 0
    ∧ (analyzeResume parse db clock (ctxAuth uid email) req collab).externalCalls = 0
    ∧ (analyzeResume parse db clock (ctxAuth uid email) req collab).sent = none
    ∧ (analyzeResume parse db clock (ctxAuth uid email) req collab).result
        = .error (.resourceExhausted (some (countUsage db uid "analyses" clock.startOfMonth)) .undefined) := by
  unfold analyzeResume handlerPipeline ctxAuth
  simp [hw, checkUsageLimit_always_denies]

/-- C6 witness: the amended statement evaluated at a concrete malformed
call of an allow-listed caller against the empty store. -/
theorem C6_quota_before_validation_witness :
    (emailAllowed betaEmail = true
      ∧ truthy reqNone.resumeText = false ∧ truthy reqNone.fileData = false)
    ∧ ((analyzeResume (fun s => some (s : String)) emptyDB clock0 (ctxAuth "u1" betaEmail) reqNone collabOK).ledgerReads = 1
      ∧ (analyzeResume (fun s => some (s : String)) emptyDB clock0 (ctxAuth "u1" betaEmail) reqNone collabOK).ledgerWrites = 0
      ∧ (analyzeResume (fun s => some (s : String)) emptyDB clock0 (ctxAuth "u1" betaEmail) reqNone collabOK).externalCalls = 0
      ∧ (analyzeResume (fun s => some (s : String)) emptyDB clock0 (ctxAuth "u1" betaEmail) reqNone collabOK).sent = none
      ∧ (analyzeResume (fun s => some (s : String)) emptyDB clock0 (ctxAuth "u1" betaEmail) reqNone collabOK).result
          = .error (.resourceExhausted (some (countUsage emptyDB "u1" "analyses" clock0.startOfMonth)) .undefined)) :=
  ⟨⟨by decide, by decide, by decide⟩,
   C6_quota_before_validation (fun s => some s) emptyDB clock0 "u1" betaEmail reqNone collabOK
     (by decide) (by decide) (by decide)⟩

/-- Helper: the analysis body leaves the store unchanged on every error
and appends exactly the one recorded event on success. -/
theorem analyzeResumeBody_records_iff {α : Type} (parse : String → Option α) (db : DB)
    (clock : Clock) (uid : String) (req : Req) (collab : Collab) :
    (analyzeResumeBody parse db clock uid req collab).db
        = (if isOkB (analyzeResumeBody parse db clock uid req collab).result
           then recordUsage db clock uid "analyses" else db)
    ∧ (analyzeResumeBody parse db clock uid req collab).ledgerWrites
        = (if isOkB (analyzeResumeBody parse db clock uid req collab).result then 1 else 0) := by
  simp only [analyzeResumeBody]
  repeat' split
  all_goals simp_all [noCallOut, failedCallOut, isOkB]

/-- Helper: the cover-letter body leaves the store unchanged on every error
and appends exactly the one recorded event on success. -/
theorem generateCoverLetterBody_records_iff (db : DB) (clock : Clock) (uid : String)
    (req : Req) (collab : Collab) :
    (generateCoverLetterBody db clock uid req collab).db
        = (if isOkB (generateCoverLetterBody db clock uid req collab).result
           then recordUsage db clock uid "coverLetters" else db)
    ∧ (generateCoverLetterBody db clock uid req collab).ledgerWrites
        = (if isOkB (generateCoverLetterBody db clock uid req collab).result then 1 else 0) := by
  simp only [generateCoverLetterBody]
  repeat' split
  all_goals simp_all [failedCallOut, isOkB]

/-- Helper: the optimization body leaves the store unchanged on every error
and appends exactly the one recorded event on success. -/
theorem optimizeResumeBody_records_iff (db : DB) (clock : Clock) (uid : String)
    (req : Req) (collab : Collab) :
    (optimizeResumeBody db clock uid req collab).db
        = (if isOkB (optimizeResumeBody db clock uid req collab).result
           then recordUsage db clock uid "optimizations" else db)
    ∧ (optimizeResumeBody db clock uid req collab).ledgerWrites
        = (if isOkB (optimizeResumeBody db clock uid req collab).result then 1 else 0) := by
  simp only [optimizeResumeBody]
  repeat' split
  all_goals simp_all [failedCallOut, isOkB]

/-- Helper: the full handler pipeline never succeeds (the broken quota gate
denies every call), writes nothing to the ledger and leaves the store
unchanged. -/
theorem handlerPipeline_denies {α : Type} (db : DB) (clock : Clock) (ctx : Ctx) (action : String)
    (body : String → HOut α) :
    (handlerPipeline db clock ctx action body).db = db
    ∧ (handlerPipeline db clock ctx action body).ledgerWrites = 0
    ∧ isOkB (handlerPipeline db clock ctx action body).result = false := by
  unfold handlerPipeline
  cases hctx : ctx.auth with
  | none => simp [noCallOut, isOkB]
  | some a =>
    by_cases he : emailAllowed a.email = true
    · simp [he, checkUsageLimit_always_denies, isOkB]
    · simp [he, noCallOut, isOkB]

/-- C7: a usage event is appended exactly when the handler work succeeds
end-to-end.  For each of the three post-quota bodies, the resulting store
is the old store with one recorded event of the matching action kind when
the result is a success, and the unchanged old store on every error path
(collaborator failure, structured error payload, missing text, parse
failure); `recordUsage` appends exactly one event.  The full callables, as
written, are always denied by the quota gate, so they never record and
never succeed. -/
theorem C7_record_iff_success {α : Type} (parse : String → Option α) (db : DB) (clock : Clock)
    (ctx : Ctx) (uid : String) (req : Req) (collab : Collab) :
    ((analyzeResumeBody parse db clock uid req collab).db
        = (if isOkB (analyzeResumeBody parse db clock uid req collab).result
           then recordUsage db clock uid "analyses" else db)
      ∧ (analyzeResumeBody parse db clock uid req collab).ledgerWrites
        = (if isOkB (analyzeResumeBody parse db clock uid req collab).result then 1 else 0))
    ∧ ((generateCoverLetterBody db clock uid req collab).db
        = (if isOkB (generateCoverLetterBody db clock uid req collab).result
           then recordUsage db clock uid "coverLetters" else db)
      ∧ (generateCoverLetterBody db clock uid req collab).ledgerWrites
        = (if isOkB (generateCoverLetterBody db clock uid req collab).result then 1 else 0))
    ∧ ((optimizeResumeBody db clock uid req collab).db
        = (if isOkB (optimizeResumeBody db clock uid req collab).result
           then recordUsage db clock uid "optimizations" else db)
      ∧ (optimizeResumeBody db clock uid req collab).ledgerWrites
        = (if isOkB (optimizeResumeBody db clock uid req collab).result then 1 else 0))
    ∧ (∀ a : String, (recordUsage db clock uid a).usage
        = db.usage ++ [{ userId := uid, action := some a, type := none, timestamp := clock.now }])
    ∧ ((analyzeResume parse db clock ctx req collab).db = db
      ∧ (analyzeResume parse db clock ctx req collab).ledgerWrites = 0
      ∧ isOkB (analyzeResume parse db clock ctx req collab).result = false)
    ∧ ((generateCoverLetter db clock ctx req collab).db = db
      ∧ (generateCoverLetter db clock ctx req collab).ledgerWrites = 0
      ∧ isOkB (generateCoverLetter db clock ctx req collab).result = false)
    ∧ ((optimizeResume db clock ctx req collab).db = db
      ∧ (optimizeResume db clock ctx req collab).ledgerWrites = 0
      ∧ isOkB (optimizeResume db clock ctx req collab).result = false) :=
  ⟨analyzeResumeBody_records_iff parse db clock uid req collab,
   generateCoverLetterBody_records_iff db clock uid req collab,
   optimizeResumeBody_records_iff db clock uid req collab,
   fun _ => rfl,
   handlerPipeline_denies db clock ctx "analyses"
     (fun u => analyzeResumeBody parse db clock u req collab),
   handlerPipeline_denies db clock ctx "coverLetters"
     (fun u => generateCoverLetterBody db clock u req collab),
   handlerPipeline_denies db clock ctx "optimizations"
     (fun u => optimizeResumeBody db clock u req collab)⟩

/-- C8 counterexample: the claim says resume text takes precedence when
both text and file are supplied and the binary payload is not attached.
On a request carrying both, the payload the analysis body sends attaches
the inline file and drops the resume text entirely. -/
theorem C8_counterexample :
    (analyzeResumeBody (fun s => some s) emptyDB clock0 "u1" reqBoth collabOK).sent
      = some [ Part.ptext "ANALYZE RESUME CRITIQUE:\n\nRESUME FILE (See attached PDF):"
             , Part.pinline (some "application/pdf") "BASE64DATA" ] := by decide

/-- C8 amended: file data takes precedence.  Whenever the file payload is
truthy, the parts the analysis handler builds are exactly those it would
build with no resume text at all (the text is ignored), and the inline
binary payload is attached. -/
theorem C8_file_takes_precedence (req : Req) (h : truthy req.fileData = true) :
    analyzeContentParts req = analyzeContentParts { req with resumeText := none }
    ∧ Part.pinline req.mimeType (jstr req.fileData) ∈ analyzeContentParts req := by
  unfold analyzeContentParts buildContentParts analyzePromptBase
  simp [h]

/-- C8 witness: the amended statement evaluated at the concrete request
carrying both resume text and a file payload. -/
theorem C8_file_takes_precedence_witness :
    truthy reqBoth.fileData = true
    ∧ (analyzeContentParts reqBoth = analyzeContentParts { reqBoth with resumeText := none }
      ∧ Part.pinline reqBoth.mimeType (jstr reqBoth.fileData) ∈ analyzeContentParts reqBoth) :=
  ⟨by decide, C8_file_takes_precedence reqBoth (by decide)⟩

/-- Helper: `indexOf` over an appended prefix free of the target shifts the
index by the prefix length. -/
theorem jsIndexOf_append_not_mem (t : Char) (l1 l2 : List Char) (h : t ∉ l1) :
    jsIndexOf t (l1 ++ l2) = (jsIndexOf t l2).map (fun k => k + l1.length) := by
  induction l1 with
  | nil =>
    simp only [List.nil_append, List.length_nil]
    cases jsIndexOf t l2 <;> simp
  | cons c cs ih =>
    have hct : ¬ c = t := by
      intro hh
      exact h (by simp [hh])
    have hcs : t ∉ cs := fun hm => h (List.mem_cons_of_mem _ hm)
    rw [List.cons_append]
    simp only [jsIndexOf, if_neg hct, List.append_eq]
    rw [ih hcs]
    cases jsIndexOf t l2 with
    | none => rfl
    | some k =>
      show some (k + cs.length + 1) = some (k + (c :: cs).length)
      congr 1

/-- Helper: `indexOf` finds the target at the head immediately. -/
theorem jsIndexOf_cons_self (t : Char) (l : List Char) : jsIndexOf t (t :: l) = some 0 := by
  simp [jsIndexOf]

/-- Helper: on a text split as brace-free prose, a block opening with a
brace, and a tail, the first opening brace sits right after the prose. -/
theorem jsIndexOf_first_lbrace (pre mid post : List Char)
    (hh : mid.head? = some lbrace) (hpre : lbrace ∉ pre) :
    jsIndexOf lbrace (pre ++ mid ++ post) = some pre.length := by
  cases mid with
  | nil => simp at hh
  | cons c tl =>
    have hc : c = lbrace := by simpa using hh
    subst hc
    rw [List.append_assoc, jsIndexOf_append_not_mem _ _ _ hpre]
    simp [jsIndexOf_cons_self]

/-- Helper: on a text split as prose, a block closing with a brace, and
brace-free trailing prose, the last closing brace sits at the end of the
block. -/
theorem jsLastIndexOf_last_rbrace (pre mid post : List Char)
    (hl : mid.getLast? = some rbrace) (hpost : rbrace ∉ post) :
    jsLastIndexOf rbrace (pre ++ mid ++ post) = some (pre.length + mid.length - 1) := by
  unfold jsLastIndexOf
  have hrev : (pre ++ mid ++ post).reverse = post.reverse ++ (mid.reverse ++ pre.reverse) := by
    simp [List.reverse_append]
  have hmid : mid.reverse.head? = some rbrace := by
    rw [List.head?_reverse]
    exact hl
  cases hmrev : mid.reverse with
  | nil => rw [hmrev] at hmid; simp at hmid
  | cons c tl =>
    have hc : c = rbrace := by
      rw [hmrev] at hmid
      simpa using hmid
    subst hc
    have hpostrev : rbrace ∉ post.reverse := by
      rw [List.mem_reverse]
      exact hpost
    have hml : mid.length = tl.length + 1 := by
      have hlen := congrArg List.length hmrev
      simpa using hlen
    rw [hrev, jsIndexOf_append_not_mem _ _ _ hpostrev, hmrev]
    rw [List.cons_append, jsIndexOf_cons_self]
    simp [List.length_append, List.length_reverse]
    omega

/-- Helper: the substring step cuts the middle block exactly. -/
theorem jsSubstringL_extract (pre mid post : List Char) :
    jsSubstringL (pre ++ mid ++ post) pre.length (pre.length + mid.length) = mid := by
  unfold jsSubstringL
  have hmin : min pre.length (pre.length + mid.length) = pre.length := by omega
  have hmax : max pre.length (pre.length + mid.length) = pre.length + mid.length := by omega
  rw [hmin, hmax]
  have h1 : pre.length + mid.length = (pre ++ mid).length := (List.length_append pre mid).symm
  rw [h1, List.take_left]
  exact List.drop_left pre mid

/-- Helper: the brace-cleaning step recovers a block that opens with the
first brace and closes with the last one, whatever brace-free prose
surrounds it. -/
theorem cleanJsonL_of_split (pre mid post : List Char)
    (hh : mid.head? = some lbrace) (hl : mid.getLast? = some rbrace)
    (hpre : lbrace ∉ pre) (hpost : rbrace ∉ post) :
    cleanJsonL (pre ++ mid ++ post) = mid := by
  have hml : 1 ≤ mid.length := by
    cases mid with
    | nil => simp at hh
    | cons c tl => simp
  unfold cleanJsonL
  rw [jsIndexOf_first_lbrace pre mid post hh hpre,
      jsLastIndexOf_last_rbrace pre mid post hl hpost]
  show jsSubstringL (pre ++ mid ++ post) pre.length (pre.length + mid.length - 1 + 1) = mid
  have harith : pre.length + mid.length - 1 + 1 = pre.length + mid.length := by omega
  rw [harith]
  exact jsSubstringL_extract pre mid post

/-- C9: on a collaborator response whose text is brace-free prose around a
JSON block (opening with the first brace of the text and closing with its
last), the analysis body extracts exactly the block from the first opening
brace to the last closing brace inclusive and returns the parse of that
substring. -/
theorem C9_brace_extraction {α : Type} (parse : String → Option α) (db : DB) (clock : Clock)
    (uid : String) (req : Req) (raw : String) (pre mid post : List Char) (status : Nat) (v : α)
    (hre : truthy req.resumeText = true)
    (hraw : raw.toList = pre ++ mid ++ post)
    (hh : mid.head? = some lbrace) (hl : mid.getLast? = some rbrace)
    (hpre : lbrace ∉ pre) (hpost : rbrace ∉ post)
    (hp : parse (String.mk mid) = some v) :
    cleanJson raw = String.mk mid
    ∧ (analyzeResumeBody parse db clock uid req
        { ok := true, status := status, error := none, text := some raw }).result = .ok v := by
  have hmidne : mid ≠ [] := by
    intro h0
    rw [h0] at hh
    simp at hh
  have hclean : cleanJson raw = String.mk mid := by
    unfold cleanJson
    rw [hraw, cleanJsonL_of_split pre mid post hh hl hpre hpost]
  refine ⟨hclean, ?_⟩
  have hrawne : raw ≠ "" := by
    intro h0
    rw [h0] at hraw
    have hempty : ([] : List Char) = pre ++ mid ++ post := hraw
    have := hempty.symm
    simp [List.append_eq_nil] at this
    exact hmidne this.2.1
  unfold analyzeResumeBody
  rw [hre]
  simp [truthy, jstr, hrawne, hclean, hp]

/-- C9 witness: the extraction and parse evaluated on a concrete response
text with prose around a JSON block. -/
theorem C9_brace_extraction_witness :
    (truthy reqText.resumeText = true
      ∧ ("x\x7ba:1\x7dy" : String).toList
          = String.toList "x" ++ String.toList "\x7ba:1\x7d" ++ String.toList "y"
      ∧ (String.toList "\x7ba:1\x7d").head? = some lbrace
      ∧ (String.toList "\x7ba:1\x7d").getLast? = some rbrace
      ∧ lbrace ∉ String.toList "x" ∧ rbrace ∉ String.toList "y")
    ∧ (cleanJson "x\x7ba:1\x7dy" = String.mk (String.toList "\x7ba:1\x7d")
      ∧ (analyzeResumeBody (fun s => some s) emptyDB clock0 "u1" reqText
          { ok := true, status := 200, error := none, text := some "x\x7ba:1\x7dy" }).result
        = .ok (String.mk (String.toList "\x7ba:1\x7d"))) :=
  ⟨⟨by decide, by decide, by decide, by decide, by decide, by decide⟩,
   C9_brace_extraction (fun s => some s) emptyDB clock0 "u1" reqText "x\x7ba:1\x7dy"
     (String.toList "x") (String.toList "\x7ba:1\x7d") (String.toList "y") 200
     (String.mk (String.toList "\x7ba:1\x7d"))
     (by decide) (by decide) (by decide) (by decide) (by decide) (by decide) rfl⟩

/-- Helper: closed form of the subscription-report tally fold — each
counter counts exactly the documents whose `type` field names it; every
other document leaves the fold untouched. -/
theorem tally_foldl (docs : List UsageEvent) (u : Usage) :
    docs.foldl tallyStep u
      = { analyses := u.analyses + docs.countP (fun d => d.type == some "analyses")
        , coverLetters := u.coverLetters + docs.countP (fun d => d.type == some "coverLetters")
        , optimizations := u.optimizations + docs.countP (fun d => d.type == some "optimizations") } := by
  induction docs generalizing u with
  | nil => simp
  | cons d ds ih =>
    rw [List.foldl_cons, ih]
    simp only [List.countP_cons]
    unfold tallyStep
    cases hd : d.type with
    | none => simp [hd]
    | some s =>
      by_cases h1 : s = "analyses"
      · subst h1
        simp [hd, Usage.mk.injEq]
        omega
      · by_cases h2 : s = "coverLetters"
        · subst h2
          simp [hd, h1, Usage.mk.injEq]
          omega
        · by_cases h3 : s = "optimizations"
          · subst h3
            simp [hd, h1, h2, Usage.mk.injEq]
            omega
          · simp [hd, h1, h2, h3]

/-- C10: the usage object of the subscription report has exactly the three
counters `analyses`, `coverLetters`, `optimizations` (the `Usage` record —
each a natural number), each counting exactly the stored documents whose
`type` field names it, so a document with any other (or absent) kind field
is silently ignored rather than counted or raising; and whenever
`getSubscription` succeeds, the usage object it returns is exactly that
tally over the month query. -/
theorem C10_usage_object (docs : List UsageEvent) (db : DB) (clock : Clock)
    (uid : String) (email : Option String) :
    tallyUsage docs
      = { analyses := docs.countP (fun d => d.type == some "analyses")
        , coverLetters := docs.countP (fun d => d.type == some "coverLetters")
        , optimizations := docs.countP (fun d => d.type == some "optimizations") }
    ∧ Except.map (fun r => r.usage) (getSubscription db clock (ctxAuth uid email))
      = Except.map (fun _ => tallyUsage (monthDocs db clock uid))
          (getSubscription db clock (ctxAuth uid email)) := by
  constructor
  · have h := tally_foldl docs { analyses := 0, coverLetters := 0, optimizations := 0 }
    unfold tallyUsage
    simpa using h
  · simp only [getSubscription, ctxAuth]
    cases PLANS (jsOrFree ((DB.getUser db uid).bind fun d => d.subscription)) <;>
      simp [Except.map]

end ATS
